import Mathlib

/-!
Verification of the per-contact connection supervisor of `core/contact.go`
(ricochet-go). The Go code is shallowly embedded: the durable contact record,
the supervisor state and the candidate connections become Lean structures;
each Go function becomes an executable Lean function on those structures, with
side effects (config writes, event publishes, closing connections, channel
operations) made explicit as event traces. Fallible paths (a nil-pointer
dereference on a missing request) are modelled with `Option`.
-/

namespace RicochetCore

/-- Status enumeration of `ricochet.Contact_Status` as used by `contact.go`. -/
inductive ContactStatus where
  | UNKNOWN
  | OFFLINE
  | ONLINE
  | REQUEST
  | REJECTED
deriving DecidableEq, Repr

/-- Durable outbound contact request sub-record (`data.Request`), with the
fields read and written by `contact.go`: `FromNickname`, `Text`,
`WhenDelivered`, `WhenRejected`, `RemoteError` and the persisted `Rejected`
boolean consulted by `ContactFromConfig`. -/
structure ContactRequest where
  fromNickname : String
  text : String
  whenDelivered : String
  whenRejected : String
  remoteError : String
  rejected : Bool
deriving DecidableEq, Repr

/-- Durable contact record (`ricochet.Contact` as used by `contact.go`). -/
structure ContactData where
  address : String
  nickname : String
  status : ContactStatus
  request : Option ContactRequest
  whenCreated : String
  lastConnected : String
deriving DecidableEq, Repr

/-- An established protocol connection as seen by `contact.go`: its direction
(`IsInbound`), its authentication results map (`Authentication`), and the
authenticated remote hostname (`RemoteHostname`). The `id` field stands for
pointer identity of the Go `*connection.Connection`, so that the supervisor's
pointer-equality test `conn == c.connection` is expressible. -/
structure Connection where
  id : Nat
  isInbound : Bool
  authentication : List (String × Bool)
  remoteHostname : String
deriving DecidableEq, Repr

/-- Lookup in the `Authentication` map; a missing key reads as `false`,
exactly like a Go map of booleans. -/
def Connection.authResult (conn : Connection) (key : String) : Bool :=
  (conn.authentication.lookup key).getD false

/-- Mutable per-contact state guarded by the contact mutex: the durable record
`data`, the supervisor-owned current connection, the `timeConnected` marker
(seconds), and the local identity's address
(`c.core.Identity.Address()`). -/
structure ContactState where
  data : ContactData
  connection : Option Connection
  timeConnected : Nat
  identityAddress : String
deriving DecidableEq, Repr

/-- Byte-lexicographic comparison of character lists: the order Go's `<`
computes on (valid UTF-8) strings. -/
def charListLess : List Char → List Char → Bool
  | [], [] => false
  | [], _ :: _ => true
  | _ :: _, [] => false
  | x :: xs, y :: ys => x < y || (x == y && charListLess xs ys)

/-- Go's `<` on strings (byte-lexicographic, which agrees with
codepoint-lexicographic order on valid UTF-8). -/
def strLess (a b : String) : Bool := charListLess a.data b.data

/-- Modelled from the spec: the address is "parseable into a hostname prefix"
(§3); `PlainHostFromAddress` itself lives outside the supervisor source file.
An address is the fixed scheme `"ricochet:"` followed by the onion hostname,
and this function extracts the hostname component. -/
def PlainHostFromAddress (address : String) : String :=
  address.drop 9

/-- Character allowed in an onion hostname (base32: `a`-`z`, `2`-`7`). -/
def validOnionChar (c : Char) : Bool :=
  (('a' ≤ c) && (c ≤ 'z')) || (('2' ≤ c) && (c ≤ '7'))

/-- Modelled from the spec: "`address` is non-empty and parses into a valid
onion hostname" (§3 invariant 1); `IsAddressValid` itself lives outside the
supervisor source file. An address is valid when it is the scheme
`"ricochet:"` followed by a 16-character base32 onion hostname. -/
def IsAddressValid (address : String) : Bool :=
  (address.data.take 9 == "ricochet:".data) &&
    ((address.data.drop 9).length == 16) &&
    (address.data.drop 9).all validOnionChar

/-- Construction of a contact from durable config (`ContactFromConfig`,
contact.go lines 36-60): an invalid address is an error (`none`); a present
request forces status `REJECTED` or `REQUEST` according to its persisted
`Rejected` flag; with no request, any status other than `REJECTED` is reset
to `UNKNOWN`. -/
def ContactFromConfig (identityAddress : String) (data : ContactData) :
    Option ContactState :=
  if !IsAddressValid data.address then
    none
  else
    let status :=
      match data.request with
      | some r =>
        if r.rejected then ContactStatus.REJECTED else ContactStatus.REQUEST
      | none =>
        if data.status ≠ ContactStatus.REJECTED then ContactStatus.UNKNOWN
        else data.status
    some { data := { data with status := status }
           connection := none
           timeConnected := 0
           identityAddress := identityAddress }

/-- Replacement arbitration (`shouldReplaceConnection`, contact.go lines
556-579). `now - c.timeConnected` is the elapsed time `time.Since
(c.timeConnected)` in seconds. -/
def shouldReplaceConnection (c : ContactState) (now : Nat) (conn : Connection) :
    Bool :=
  let myHostname := PlainHostFromAddress c.identityAddress
  match c.connection with
  | none => true
  | some existing =>
    if existing.isInbound == conn.isInbound then
      true
    else if now - c.timeConnected > 30 then
      true
    else
      let preferOutbound := strLess myHostname conn.remoteHostname
      if preferOutbound != conn.isInbound then true else false

/-- Observable actions of the supervisor and record operations, in program
order: record mutations, the config write, the event publish, the queued
message flush, closing an unhandled connection, receiving the protocol loop's
close notification, and launching a protocol loop task. -/
inductive Ev where
  | setStatus (o n : ContactStatus)
  | setRequestField
  | clearRequest
  | setLastConnected
  | setConnectionField (o n : Bool)
  | configWrite
  | publish
  | sendQueued
  | closeUnhandled
  | recvCloseSignal
  | spawnProtocolLoop
deriving DecidableEq, Repr

/-- Request status transition (`updateContactRequest`, contact.go lines
606-639, Table A of the spec). Assumes the mutex is held; the caller
publishes. `none` models the nil dereference of `c.data.Request` that the Go
code would hit on `"Pending"`, `"Rejected"` or `"Error"` with no outstanding
request. Returns the new state, whether to keep the request channel open, and
the trace of record mutations followed by the unconditional config write. -/
def updateContactRequest (c : ContactState) (status : String) (now : String) :
    Option (ContactState × Bool × List Ev) :=
  if status = "Pending" then
    match c.data.request with
    | none => none
    | some r =>
      let c1 := { c with data :=
        { c.data with request := some { r with whenDelivered := now } } }
      some (c1, true, [Ev.setRequestField, Ev.configWrite])
  else if status = "Accepted" then
    let st := if c.connection.isSome then ContactStatus.ONLINE
              else ContactStatus.UNKNOWN
    let c1 := { c with data := { c.data with request := none, status := st } }
    some (c1, false,
      [Ev.clearRequest, Ev.setStatus c.data.status st, Ev.configWrite])
  else if status = "Rejected" then
    match c.data.request with
    | none => none
    | some r =>
      let c1 := { c with data :=
        { c.data with request := some { r with whenRejected := now } } }
      some (c1, false, [Ev.setRequestField, Ev.configWrite])
  else if status = "Error" then
    match c.data.request with
    | none => none
    | some r =>
      let r1 := { r with whenRejected := now, remoteError := "error occurred" }
      let c1 := { c with data := { c.data with request := some r1 } }
      some (c1, false, [Ev.setRequestField, Ev.configWrite])
  else
    some (c, false, [Ev.configWrite])

/-- Public request update (`UpdateContactRequest`, contact.go lines 583-602):
with no outstanding request it returns `false` immediately with no effects;
otherwise it runs `updateContactRequest` and then publishes an UPDATE
event. -/
def UpdateContactRequest (c : ContactState) (status : String) (now : String) :
    Option (ContactState × Bool × List Ev) :=
  if c.data.request.isNone then
    some (c, false, [])
  else
    (updateContactRequest c status now).map
      (fun x => (x.1, x.2.1, x.2.2 ++ [Ev.publish]))

/-- Reaction to a change of the current-connection field
(`onConnectionStateChanged`, contact.go lines 508-552). Assumes the mutex is
held. Returns the new state and the trace: the branch's mutations, the
`LastConnected` update, the config write, the publish (after releasing the
mutex), and the queued-message flush when a connection is present. -/
def onConnectionStateChanged (c : ContactState) (now : Nat) (nowStr : String) :
    Option (ContactState × List Ev) :=
  let branch : Option (ContactState × List Ev) :=
    match c.connection with
    | some conn =>
      if c.data.request.isSome && conn.isInbound then
        (updateContactRequest c "Accepted" nowStr).map (fun x => (x.1, x.2.2))
      else
        some ({ c with data := { c.data with status := ContactStatus.ONLINE } },
              [Ev.setStatus c.data.status ContactStatus.ONLINE])
    | none =>
      if c.data.status = ContactStatus.ONLINE then
        some ({ c with data :=
                  { c.data with status := ContactStatus.OFFLINE } },
              [Ev.setStatus ContactStatus.ONLINE ContactStatus.OFFLINE])
      else
        some (c, [])
  branch.map fun x =>
    let c2 := { x.1 with timeConnected := now,
                         data := { x.1.data with lastConnected := nowStr } }
    (c2, x.2 ++ [Ev.setLastConnected, Ev.configWrite, Ev.publish] ++
         (if c.connection.isSome then [Ev.sendQueued] else []))

/-- The distinct rejection kinds of `considerUsingConnection` (contact.go
lines 463-503), one per `fmt.Errorf` site. -/
inductive RejectReason where
  | duplicateAssignment
  | notAuthenticated
  | hostnameMismatch
  | keepExisting
deriving DecidableEq, Repr

/-- Arbitration of a candidate connection (`considerUsingConnection`,
contact.go lines 463-503). Assumes the mutex is held. Returns the (unchanged)
state, the verdict, and the list of connections closed by the deferred
`killConn` logic: the candidate on rejection, the previous connection (if
any) on acceptance. -/
def considerUsingConnection (c : ContactState) (now : Nat) (conn : Connection) :
    ContactState × Except RejectReason Unit × List Connection :=
  if c.connection = some conn then
    (c, Except.error RejectReason.duplicateAssignment, [conn])
  else if !conn.authResult "im.ricochet.auth.hidden-service" then
    (c, Except.error RejectReason.notAuthenticated, [conn])
  else if PlainHostFromAddress c.data.address ≠ conn.remoteHostname then
    (c, Except.error RejectReason.hostnameMismatch, [conn])
  else if c.connection.isSome && !shouldReplaceConnection c now conn then
    (c, Except.error RejectReason.keepExisting, [conn])
  else
    (c, Except.ok (), c.connection.toList)

/-- The supervisor's handling of a non-nil connection offer
(`contactConnection`, contact.go lines 228-248): arbitrate under the mutex;
on rejection close the candidate; on acceptance write the connection field,
wait for the previous protocol loop's close notification when one was
running, launch the new protocol loop, and run `onConnectionStateChanged`. -/
def superviseOffer (c : ContactState) (now : Nat) (nowStr : String)
    (conn : Connection) : Option (ContactState × List Ev) :=
  match (considerUsingConnection c now conn).2.1 with
  | Except.error _ => some (c, [Ev.closeUnhandled])
  | Except.ok _ =>
    let replacing := c.connection.isSome
    let c1 := { c with connection := some conn }
    (onConnectionStateChanged c1 now nowStr).map fun x =>
      (x.1, Ev.setConnectionField c.connection.isSome true ::
            ((if replacing then [Ev.recvCloseSignal] else []) ++
             (Ev.spawnProtocolLoop :: x.2)))

/-- The supervisor's handling of the active protocol loop's close notification
(`contactConnection`, contact.go lines 250-255): clear the connection field
and run `onConnectionStateChanged`. -/
def superviseClosed (c : ContactState) (now : Nat) (nowStr : String) :
    Option (ContactState × List Ev) :=
  let c1 := { c with connection := none }
  (onConnectionStateChanged c1 now nowStr).map fun x =>
    (x.1, Ev.setConnectionField c.connection.isSome false :: x.2)

/-- Observable actions of the outbound connector after a successful
authentication (`connectOutbound`, contact.go lines 336-378). -/
inductive OutEffect where
  | closeConn
  | backoff
  | updateAccepted
  | sendRequest
  | deliver
deriving DecidableEq, Repr

/-- Post-authentication arbitration of the outbound connector
(`connectOutbound`, contact.go lines 347-377): given the `known` flag from
`ProcessAuthAsClient`, the local `isRequest` flag, and whether the contact
request handshake (`sendContactRequest`) would succeed, the actions taken:
close/backoff/retry, implicit acceptance, the request handshake, and finally
delivery to the assignment channel via `AssignConnection`. -/
def connectOutboundArbitration (known isRequest handshakeOk : Bool) :
    List OutEffect :=
  if !known && !isRequest then
    [OutEffect.closeConn, OutEffect.backoff]
  else
    let p := if known && isRequest then ([OutEffect.updateAccepted], false)
             else ([], isRequest)
    if p.2 then
      if handshakeOk then p.1 ++ [OutEffect.sendRequest, OutEffect.deliver]
      else p.1 ++ [OutEffect.sendRequest, OutEffect.backoff]
    else
      p.1 ++ [OutEffect.deliver]

/-! ## Order facts about the embedded string comparison -/

theorem charListLess_asymm (xs : List Char) :
    ∀ ys, charListLess xs ys = true → charListLess ys xs = false := by
  induction xs with
  | nil =>
    intro ys h
    cases ys with
    | nil => simp [charListLess] at h
    | cons y t => simp [charListLess]
  | cons x t ih =>
    intro ys h
    cases ys with
    | nil => simp [charListLess] at h
    | cons y u =>
      simp only [charListLess, Bool.or_eq_true, Bool.and_eq_true, beq_iff_eq,
        decide_eq_true_eq] at h
      rcases h with hlt | ⟨heq, hrec⟩
      · have h1 : ¬ y < x := lt_asymm hlt
        have h2 : y ≠ x := fun he => by subst he; exact lt_irrefl _ hlt
        simp [charListLess, h1, h2]
      · subst heq
        simp [charListLess, lt_irrefl, ih u hrec]

theorem charListLess_total (xs : List Char) :
    ∀ ys, xs ≠ ys → charListLess xs ys = true ∨ charListLess ys xs = true := by
  induction xs with
  | nil =>
    intro ys h
    cases ys with
    | nil => exact absurd rfl h
    | cons y t => left; simp [charListLess]
  | cons x t ih =>
    intro ys h
    cases ys with
    | nil => right; simp [charListLess]
    | cons y u =>
      rcases lt_trichotomy x y with hlt | heq | hgt
      · left; simp [charListLess, hlt]
      · subst heq
        have hne : t ≠ u := fun he => h (by rw [he])
        rcases ih u hne with h1 | h1
        · left; simp [charListLess, h1]
        · right; simp [charListLess, h1]
      · right; simp [charListLess, hgt]

theorem strLess_asymm (a b : String) (h : strLess a b = true) :
    strLess b a = false :=
  charListLess_asymm a.data b.data h

theorem strLess_total (a b : String) (h : a ≠ b) :
    strLess a b = true ∨ strLess b a = true :=
  charListLess_total a.data b.data
    (fun hd => h (by cases a; cases b; simp_all))

/-! ## Claim theorems -/

/-- C1: `shouldReplaceConnection(C)` returns true iff no incumbent connection
is held, or the incumbent's inbound flag equals `C`'s inbound flag, or the
incumbent is older than 30 seconds as measured from `time_connected`, or
`(my_hostname < C.remote_hostname)` differs from `C.inbound`; otherwise it
returns false. The rules are checked in that order; as each of rules 1-4
answers "replace", the ordered chain is equivalent to this disjunction. -/
theorem shouldReplaceConnection_rules (c : ContactState) (now : Nat)
    (conn : Connection) :
    shouldReplaceConnection c now conn = true ↔
      (c.connection = none ∨
       (∃ e, c.connection = some e ∧ e.isInbound = conn.isInbound) ∨
       (c.connection.isSome = true ∧ now - c.timeConnected > 30) ∨
       (c.connection.isSome = true ∧
        strLess (PlainHostFromAddress c.identityAddress) conn.remoteHostname
          ≠ conn.isInbound)) := by
  cases hc : c.connection with
  | none => simp [shouldReplaceConnection, hc]
  | some e =>
    by_cases h1 : e.isInbound = conn.isInbound
    · simp [shouldReplaceConnection, hc, h1]
    · by_cases h2 : now - c.timeConnected > 30
      · simp [shouldReplaceConnection, hc, h1, h2]
      · by_cases h3 :
          strLess (PlainHostFromAddress c.identityAddress) conn.remoteHostname
            = conn.isInbound
        · simp [shouldReplaceConnection, hc, h1, h2, h3]
        · simp [shouldReplaceConnection, hc, h1, h2, h3]

theorem strLess_not (a b : String) (h : a ≠ b) :
    (!(strLess a b)) = strLess b a := by
  rcases strLess_total a b h with h1 | h1
  · rw [h1, strLess_asymm a b h1]; rfl
  · rw [strLess_asymm b a h1, h1]; rfl

/-- C2: with a young opposite-direction incumbent on both sides, the glare
tie-break reaches complementary verdicts: the side with local hostname `a`
facing an inbound candidate from `b` replaces exactly when the side with
local hostname `b` facing an inbound candidate from `a` keeps. Each side
replaces its outbound incumbent iff the remote hostname is lexicographically
smaller, so exactly one connection survives: the outbound connection of the
lexicographically smaller hostname. -/
theorem glare_tie_break (a b : String) (hab : a ≠ b)
    (cA cB : ContactState) (eA eB oA oB : Connection) (nowA nowB : Nat)
    (hAhost : PlainHostFromAddress cA.identityAddress = a)
    (hBhost : PlainHostFromAddress cB.identityAddress = b)
    (hAconn : cA.connection = some eA)
    (hBconn : cB.connection = some eB)
    (hAdir : eA.isInbound = false) (hBdir : eB.isInbound = false)
    (hAyoung : ¬ nowA - cA.timeConnected > 30)
    (hByoung : ¬ nowB - cB.timeConnected > 30)
    (hoAin : oA.isInbound = true) (hoAhost : oA.remoteHostname = b)
    (hoBin : oB.isInbound = true) (hoBhost : oB.remoteHostname = a) :
    shouldReplaceConnection cA nowA oA
      = !(shouldReplaceConnection cB nowB oB) ∧
    shouldReplaceConnection cA nowA oA = strLess b a ∧
    shouldReplaceConnection cB nowB oB = strLess a b := by
  have hA : shouldReplaceConnection cA nowA oA = !(strLess a b) := by
    cases hsl : strLess a b <;>
      simp [shouldReplaceConnection, hAconn, hAdir, hoAin, hAyoung, hAhost,
        hoAhost, hsl]
  have hB : shouldReplaceConnection cB nowB oB = !(strLess b a) := by
    cases hsl : strLess b a <;>
      simp [shouldReplaceConnection, hBconn, hBdir, hoBin, hByoung, hBhost,
        hoBhost, hsl]
  refine ⟨?_, ?_, ?_⟩
  · rw [hA, hB, strLess_not b a (Ne.symm hab)]
  · rw [hA, strLess_not a b hab]
  · rw [hB, strLess_not b a (Ne.symm hab)]

/-- Concrete side-A supervisor state for the glare tie-break witness. -/
def glareStateA : ContactState :=
  { data := { address := "ricochet:bbbbbbbbbbbbbbbb", nickname := "peer",
              status := ContactStatus.ONLINE, request := none,
              whenCreated := "", lastConnected := "" }
    connection := some { id := 1, isInbound := false, authentication := [],
                         remoteHostname := "bbbbbbbbbbbbbbbb" }
    timeConnected := 0
    identityAddress := "ricochet:aaaaaaaaaaaaaaaa" }

/-- Concrete side-B supervisor state for the glare tie-break witness. -/
def glareStateB : ContactState :=
  { data := { address := "ricochet:aaaaaaaaaaaaaaaa", nickname := "peer",
              status := ContactStatus.ONLINE, request := none,
              whenCreated := "", lastConnected := "" }
    connection := some { id := 2, isInbound := false, authentication := [],
                         remoteHostname := "aaaaaaaaaaaaaaaa" }
    timeConnected := 0
    identityAddress := "ricochet:bbbbbbbbbbbbbbbb" }

/-- Concrete inbound candidate arriving at side A (from hostname `b`). -/
def glareOfferA : Connection :=
  { id := 3, isInbound := true,
    authentication := [("im.ricochet.auth.hidden-service", true)],
    remoteHostname := "bbbbbbbbbbbbbbbb" }

/-- Concrete inbound candidate arriving at side B (from hostname `a`). -/
def glareOfferB : Connection :=
  { id := 4, isInbound := true,
    authentication := [("im.ricochet.auth.hidden-service", true)],
    remoteHostname := "aaaaaaaaaaaaaaaa" }

/-- Witness for C2 at hostnames `aaaaaaaaaaaaaaaa` and `bbbbbbbbbbbbbbbb`. -/
theorem glare_tie_break_witness :
    shouldReplaceConnection glareStateA 5 glareOfferA
      = !(shouldReplaceConnection glareStateB 5 glareOfferB) ∧
    shouldReplaceConnection glareStateA 5 glareOfferA
      = strLess "bbbbbbbbbbbbbbbb" "aaaaaaaaaaaaaaaa" ∧
    shouldReplaceConnection glareStateB 5 glareOfferB
      = strLess "aaaaaaaaaaaaaaaa" "bbbbbbbbbbbbbbbb" :=
  glare_tie_break "aaaaaaaaaaaaaaaa" "bbbbbbbbbbbbbbbb" (by decide)
    glareStateA glareStateB _ _ glareOfferA glareOfferB 5 5
    (by decide) (by decide) rfl rfl rfl rfl (by decide) (by decide)
    rfl rfl rfl rfl

/-- The status chosen by the `"Accepted"` branch of `updateContactRequest`:
ONLINE when a connection is currently held, UNKNOWN otherwise. -/
def acceptedStatus (c : ContactState) : ContactStatus :=
  if c.connection.isSome then ContactStatus.ONLINE else ContactStatus.UNKNOWN

/-- C3: with an outstanding request, `updateContactRequest` follows Table A:
`"Pending"` sets `when_delivered` and returns true; `"Accepted"` clears the
request and sets status to ONLINE if a connection is held, else UNKNOWN;
`"Rejected"` sets `when_rejected`; `"Error"` sets `when_rejected` and
`remote_error` to "error occurred"; any other token changes nothing; every
token except `"Pending"` returns false; and every token writes the record to
the config store. -/
theorem updateContactRequest_tableA (c : ContactState) (r : ContactRequest)
    (now : String) (h : c.data.request = some r) :
    updateContactRequest c "Pending" now =
      some ({ c with data :=
          { c.data with request := some { r with whenDelivered := now } } },
        true, [Ev.setRequestField, Ev.configWrite]) ∧
    updateContactRequest c "Accepted" now =
      some ({ c with data := { c.data with
          request := none
          status := acceptedStatus c } },
        false,
        [Ev.clearRequest, Ev.setStatus c.data.status (acceptedStatus c),
         Ev.configWrite]) ∧
    updateContactRequest c "Rejected" now =
      some ({ c with data :=
          { c.data with request := some { r with whenRejected := now } } },
        false, [Ev.setRequestField, Ev.configWrite]) ∧
    updateContactRequest c "Error" now =
      some ({ c with data := { c.data with request := (some
          { r with whenRejected := now, remoteError := "error occurred" }) } },
        false, [Ev.setRequestField, Ev.configWrite]) ∧
    (∀ tok, tok ≠ "Pending" → tok ≠ "Accepted" → tok ≠ "Rejected" →
      tok ≠ "Error" →
      updateContactRequest c tok now = some (c, false, [Ev.configWrite])) ∧
    (∀ tok c1 re evs, updateContactRequest c tok now = some (c1, re, evs) →
      ((re = true ↔ tok = "Pending") ∧ Ev.configWrite ∈ evs)) := by
  refine ⟨?_, ?_, ?_, ?_, ?_, ?_⟩
  · simp [updateContactRequest, h]
  · simp [updateContactRequest, acceptedStatus]
  · simp [updateContactRequest, h]
  · simp [updateContactRequest, h]
  · intro tok h1 h2 h3 h4
    simp [updateContactRequest, h1, h2, h3, h4]
  · intro tok c1 re evs heq
    by_cases h1 : tok = "Pending"
    · subst h1
      simp [updateContactRequest, h] at heq
      simp [heq.2.1.symm, heq.2.2.symm]
    · by_cases h2 : tok = "Accepted"
      · subst h2
        simp [updateContactRequest] at heq
        simp [h1, heq.2.1.symm, heq.2.2.symm]
      · by_cases h3 : tok = "Rejected"
        · subst h3
          simp [updateContactRequest, h] at heq
          simp [h1, heq.2.1.symm, heq.2.2.symm]
        · by_cases h4 : tok = "Error"
          · subst h4
            simp [updateContactRequest, h] at heq
            simp [h1, heq.2.1.symm, heq.2.2.symm]
          · simp [updateContactRequest, h1, h2, h3, h4] at heq
            simp [h1, heq.2.1.symm, heq.2.2.symm]

/-- Concrete outstanding request for witnesses. -/
def witReq : ContactRequest :=
  { fromNickname := "me", text := "hello", whenDelivered := "",
    whenRejected := "", remoteError := "", rejected := false }

/-- Concrete contact state with an outstanding request for witnesses. -/
def witReqState : ContactState :=
  { data := { address := "ricochet:bbbbbbbbbbbbbbbb", nickname := "peer",
              status := ContactStatus.REQUEST, request := some witReq,
              whenCreated := "", lastConnected := "" }
    connection := none
    timeConnected := 0
    identityAddress := "ricochet:aaaaaaaaaaaaaaaa" }

/-- Witness for C3 at a concrete state with an outstanding request. -/
theorem updateContactRequest_tableA_witness :
    witReqState.data.request = some witReq ∧
    updateContactRequest witReqState "Pending" "T" =
      some ({ witReqState with data := { witReqState.data with
          request := some { witReq with whenDelivered := "T" } } },
        true, [Ev.setRequestField, Ev.configWrite]) :=
  ⟨rfl, (updateContactRequest_tableA witReqState witReq "T" rfl).1⟩

/-- A request is outstanding and not rejected (its persisted `Rejected` flag,
the one `ContactFromConfig` consults, is unset). -/
def requestActive (d : ContactData) : Bool :=
  d.request.elim false (fun r => !r.rejected)

/-- A request is outstanding and rejected (its persisted `Rejected` flag is
set). -/
def requestRejectedFlag (d : ContactData) : Bool :=
  d.request.elim false (fun r => r.rejected)

/-- The invariant claimed of the contact record: status is REQUEST iff a
request exists and is not rejected, and status is REJECTED iff a request
exists and is rejected. -/
def StatusRequestInvariant (d : ContactData) : Prop :=
  (d.status = ContactStatus.REQUEST ↔ requestActive d = true) ∧
  (d.status = ContactStatus.REJECTED ↔ requestRejectedFlag d = true)

instance (d : ContactData) : Decidable (StatusRequestInvariant d) := by
  unfold StatusRequestInvariant
  infer_instance

/-- Concrete config record with no request but a persisted REJECTED status. -/
def c4Data : ContactData :=
  { address := "ricochet:bbbbbbbbbbbbbbbb", nickname := "peer",
    status := ContactStatus.REJECTED, request := none,
    whenCreated := "", lastConnected := "" }

/-- The contact state `ContactFromConfig` builds from `c4Data`: the REJECTED
status is kept even though no request exists. -/
def c4State : ContactState :=
  { data := c4Data, connection := none, timeConnected := 0,
    identityAddress := "ricochet:aaaaaaaaaaaaaaaa" }

/-- C4 counterexample: `ContactFromConfig` does not establish the claimed
invariant. On a valid-address record with no request and stored status
REJECTED, the constructed contact has status REJECTED with no request, so
"status == REJECTED iff a request exists and is rejected" fails. -/
theorem contactFromConfig_invariant_cex :
    ContactFromConfig "ricochet:aaaaaaaaaaaaaaaa" c4Data = some c4State ∧
    ¬ StatusRequestInvariant c4State.data := by
  exact ⟨by decide, by decide⟩

/-- C4 (amended): `ContactFromConfig` establishes "status == REQUEST iff a
request exists and is not rejected" and the forward direction for REJECTED;
status REJECTED additionally persists from config when no request exists.
`updateContactRequest` (on `"Rejected"`, `"Error"`, and every other token)
preserves the invariant read through the persisted rejected flag: those
tokens set `when_rejected`/`remote_error` but change neither the status nor
the flag. -/
theorem statusRequestInvariant_amended :
    (∀ myAddr d s, ContactFromConfig myAddr d = some s →
      ((s.data.status = ContactStatus.REQUEST ↔ requestActive s.data = true) ∧
       (requestRejectedFlag s.data = true →
         s.data.status = ContactStatus.REJECTED) ∧
       (s.data.status = ContactStatus.REJECTED →
         requestRejectedFlag s.data = true ∨
           (s.data.request = none ∧ d.status = ContactStatus.REJECTED)))) ∧
    (∀ c tok now c1 re evs,
      updateContactRequest c tok now = some (c1, re, evs) →
      StatusRequestInvariant c.data → StatusRequestInvariant c1.data) := by
  constructor
  · intro myAddr d s h
    by_cases hv : IsAddressValid d.address
    · cases hr : d.request with
      | some r =>
        cases hrej : r.rejected <;>
          (simp [ContactFromConfig, hv, hr, hrej] at h;
           simp [← h, requestActive, requestRejectedFlag, hr, hrej])
      | none =>
        by_cases hd : d.status = ContactStatus.REJECTED
        · simp [ContactFromConfig, hv, hr, hd] at h
          simp [← h, requestActive, requestRejectedFlag, hr, hd]
        · simp [ContactFromConfig, hv, hr, hd] at h
          simp [← h, requestActive, requestRejectedFlag, hr]
    · simp [ContactFromConfig, hv] at h
  · intro c tok now c1 re evs h hInv
    by_cases h1 : tok = "Pending"
    · subst h1
      cases hr : c.data.request with
      | none => simp [updateContactRequest, hr] at h
      | some r =>
        simp [updateContactRequest, hr] at h
        simp only [StatusRequestInvariant, requestActive, requestRejectedFlag,
          hr, Option.elim_some] at hInv
        simp [← h.1, StatusRequestInvariant, requestActive,
          requestRejectedFlag, hr, hInv]
    · by_cases h2 : tok = "Accepted"
      · subst h2
        simp [updateContactRequest] at h
        cases hc : c.connection.isSome <;>
          simp [← h.1, StatusRequestInvariant, requestActive,
            requestRejectedFlag, hc]
      · by_cases h3 : tok = "Rejected"
        · subst h3
          cases hr : c.data.request with
          | none => simp [updateContactRequest, h1, hr] at h
          | some r =>
            simp [updateContactRequest, h1, hr] at h
            simp only [StatusRequestInvariant, requestActive,
              requestRejectedFlag, hr, Option.elim_some] at hInv
            simp [← h.1, StatusRequestInvariant, requestActive,
              requestRejectedFlag, hr, hInv]
        · by_cases h4 : tok = "Error"
          · subst h4
            cases hr : c.data.request with
            | none => simp [updateContactRequest, h1, h2, hr] at h
            | some r =>
              simp [updateContactRequest, h1, h2, hr] at h
              simp only [StatusRequestInvariant, requestActive,
                requestRejectedFlag, hr, Option.elim_some] at hInv
              simp [← h.1, StatusRequestInvariant, requestActive,
                requestRejectedFlag, hr, hInv]
          · simp [updateContactRequest, h1, h2, h3, h4] at h
            simpa [← h.1] using hInv

/-- Concrete config record carrying a rejected request. -/
def c4RejData : ContactData :=
  { address := "ricochet:bbbbbbbbbbbbbbbb", nickname := "peer",
    status := ContactStatus.UNKNOWN,
    request := some { fromNickname := "me", text := "hello",
                      whenDelivered := "", whenRejected := "",
                      remoteError := "", rejected := true },
    whenCreated := "", lastConnected := "" }

/-- The contact state `ContactFromConfig` builds from `c4RejData`. -/
def c4RejState : ContactState :=
  { data := { c4RejData with status := ContactStatus.REJECTED },
    connection := none, timeConnected := 0,
    identityAddress := "ricochet:aaaaaaaaaaaaaaaa" }

/-- Witness for the amended C4 at a concrete rejected-request config
record. -/
theorem statusRequestInvariant_amended_witness :
    ContactFromConfig "ricochet:aaaaaaaaaaaaaaaa" c4RejData = some c4RejState ∧
    ((c4RejState.data.status = ContactStatus.REQUEST ↔
        requestActive c4RejState.data = true) ∧
     (requestRejectedFlag c4RejState.data = true →
        c4RejState.data.status = ContactStatus.REJECTED) ∧
     (c4RejState.data.status = ContactStatus.REJECTED →
        requestRejectedFlag c4RejState.data = true ∨
          (c4RejState.data.request = none ∧
           c4RejData.status = ContactStatus.REJECTED))) :=
  ⟨by decide,
   statusRequestInvariant_amended.1 "ricochet:aaaaaaaaaaaaaaaa" c4RejData
     c4RejState (by decide)⟩

theorem updateContactRequest_accepted_eq (c : ContactState) (nowStr : String) :
    updateContactRequest c "Accepted" nowStr =
      some ({ c with data := { c.data with
          request := none
          status := acceptedStatus c } },
        false,
        [Ev.clearRequest, Ev.setStatus c.data.status (acceptedStatus c),
         Ev.configWrite]) := by
  simp [updateContactRequest, acceptedStatus]

/-- C5: after every change of the connection field,
`onConnectionStateChanged` proceeds by exactly this case analysis: with a
connection present, an outstanding request and an inbound connection it
applies `updateContactRequest("Accepted")`; else with a connection present it
sets status to ONLINE; else if status was ONLINE it becomes OFFLINE;
otherwise status is unchanged; and in every case `time_connected` and
`last_connected` are set to now. -/
theorem onConnectionStateChanged_cases (c : ContactState) (now : Nat)
    (nowStr : String) :
    ∃ c1 evs, onConnectionStateChanged c now nowStr = some (c1, evs) ∧
      c1.timeConnected = now ∧ c1.data.lastConnected = nowStr ∧
      c1.connection = c.connection ∧
      (∀ conn, c.connection = some conn → c.data.request.isSome = true →
        conn.isInbound = true →
        ∃ cAcc evsAcc, updateContactRequest c "Accepted" nowStr =
            some (cAcc, false, evsAcc) ∧
          c1.data = { cAcc.data with lastConnected := nowStr }) ∧
      (∀ conn, c.connection = some conn →
        (c.data.request.isSome = false ∨ conn.isInbound = false) →
        c1.data =
          { c.data with status := ContactStatus.ONLINE,
                        lastConnected := nowStr }) ∧
      (c.connection = none → c.data.status = ContactStatus.ONLINE →
        c1.data =
          { c.data with status := ContactStatus.OFFLINE,
                        lastConnected := nowStr }) ∧
      (c.connection = none → c.data.status ≠ ContactStatus.ONLINE →
        c1.data = { c.data with lastConnected := nowStr }) := by
  cases hc : c.connection with
  | none =>
    by_cases hs : c.data.status = ContactStatus.ONLINE
    · refine ⟨_, _, by simp [onConnectionStateChanged, hc, hs]; exact ⟨rfl, rfl⟩,
        ?_, ?_, ?_, ?_, ?_, ?_, ?_⟩
      · rfl
      · rfl
      · simp [hc]
      · intro conn hconn; simp [hc] at hconn
      · intro conn hconn; simp [hc] at hconn
      · intro _ _; rfl
      · intro _ hs2; exact absurd hs hs2
    · refine ⟨_, _, by simp [onConnectionStateChanged, hc, hs]; exact ⟨rfl, rfl⟩,
        ?_, ?_, ?_, ?_, ?_, ?_, ?_⟩
      · rfl
      · rfl
      · simp [hc]
      · intro conn hconn; simp [hc] at hconn
      · intro conn hconn; simp [hc] at hconn
      · intro _ hs2; exact absurd hs2 hs
      · intro _ _; rfl
  | some conn =>
    by_cases hq : c.data.request.isSome = true
    · by_cases hi : conn.isInbound = true
      · refine ⟨_, _, by simp [onConnectionStateChanged, hc, hq, hi,
            updateContactRequest_accepted_eq]; exact ⟨rfl, rfl⟩,
          ?_, ?_, ?_, ?_, ?_, ?_, ?_⟩
        · rfl
        · rfl
        · simp [hc]
        · intro conn' hconn' _ _
          refine ⟨_, _, updateContactRequest_accepted_eq c nowStr, ?_⟩
          rfl
        · intro conn' hconn' hcase
          cases hconn'
          rcases hcase with h | h
          · exact absurd hq (by simp [h])
          · exact absurd hi (by simp [h])
        · intro hnone; simp at hnone
        · intro hnone; simp at hnone
      · refine ⟨_, _, by simp [onConnectionStateChanged, hc, hi]; exact ⟨rfl, rfl⟩,
          ?_, ?_, ?_, ?_, ?_, ?_, ?_⟩
        · rfl
        · rfl
        · simp [hc]
        · intro conn' hconn' _ hi2
          cases hconn'
          exact absurd hi2 hi
        · intro conn' hconn' _; rfl
        · intro hnone; simp at hnone
        · intro hnone; simp at hnone
    · refine ⟨_, _, by simp [onConnectionStateChanged, hc, hq]; exact ⟨rfl, rfl⟩,
        ?_, ?_, ?_, ?_, ?_, ?_, ?_⟩
      · rfl
      · rfl
      · simp [hc]
      · intro conn' hconn' hq2 _; exact absurd hq2 hq
      · intro conn' hconn' _; rfl
      · intro hnone; simp at hnone
      · intro hnone; simp at hnone

/-- Concrete authenticated inbound connection from the peer of
`witReqState`. -/
def c5Conn : Connection :=
  { id := 7, isInbound := true,
    authentication := [("im.ricochet.auth.hidden-service", true)],
    remoteHostname := "bbbbbbbbbbbbbbbb" }

/-- Concrete state holding an inbound connection and an outstanding
request. -/
def c5State : ContactState := { witReqState with connection := some c5Conn }

/-- Witness for C5 at a concrete state with an inbound connection and an
outstanding request. -/
theorem onConnectionStateChanged_cases_witness :
    ∃ c1 evs, onConnectionStateChanged c5State 9 "T" = some (c1, evs) ∧
      c1.timeConnected = 9 ∧ c1.data.lastConnected = "T" ∧
      c1.connection = c5State.connection ∧
      (∀ conn, c5State.connection = some conn →
        c5State.data.request.isSome = true → conn.isInbound = true →
        ∃ cAcc evsAcc, updateContactRequest c5State "Accepted" "T" =
            some (cAcc, false, evsAcc) ∧
          c1.data = { cAcc.data with lastConnected := "T" }) ∧
      (∀ conn, c5State.connection = some conn →
        (c5State.data.request.isSome = false ∨ conn.isInbound = false) →
        c1.data =
          { c5State.data with status := ContactStatus.ONLINE,
                              lastConnected := "T" }) ∧
      (c5State.connection = none →
        c5State.data.status = ContactStatus.ONLINE →
        c1.data =
          { c5State.data with status := ContactStatus.OFFLINE,
                              lastConnected := "T" }) ∧
      (c5State.connection = none →
        c5State.data.status ≠ ContactStatus.ONLINE →
        c1.data = { c5State.data with lastConnected := "T" }) :=
  onConnectionStateChanged_cases c5State 9 "T"

/-- C6: `considerUsingConnection(C)` rejects with a distinct error exactly
when `C` is the identity-equal connection already held, or `C` lacks the
`"im.ricochet.auth.hidden-service"` authentication, or `C.remote_hostname`
differs from the hostname of the contact's address, or an incumbent exists
and `shouldReplaceConnection(C)` is false — in that order. On every rejection
exactly the candidate is closed and the contact state (the connection field
included) is unchanged; on acceptance the previously held connection, if
any, is closed and the connection field is still not modified. -/
theorem considerUsingConnection_spec (c : ContactState) (now : Nat)
    (conn : Connection) :
    (considerUsingConnection c now conn).1 = c ∧
    ((considerUsingConnection c now conn).2.1 =
        Except.error RejectReason.duplicateAssignment ↔
      c.connection = some conn) ∧
    ((considerUsingConnection c now conn).2.1 =
        Except.error RejectReason.notAuthenticated ↔
      (c.connection ≠ some conn ∧
       conn.authResult "im.ricochet.auth.hidden-service" = false)) ∧
    ((considerUsingConnection c now conn).2.1 =
        Except.error RejectReason.hostnameMismatch ↔
      (c.connection ≠ some conn ∧
       conn.authResult "im.ricochet.auth.hidden-service" = true ∧
       PlainHostFromAddress c.data.address ≠ conn.remoteHostname)) ∧
    ((considerUsingConnection c now conn).2.1 =
        Except.error RejectReason.keepExisting ↔
      (c.connection ≠ some conn ∧
       conn.authResult "im.ricochet.auth.hidden-service" = true ∧
       PlainHostFromAddress c.data.address = conn.remoteHostname ∧
       c.connection.isSome = true ∧
       shouldReplaceConnection c now conn = false)) ∧
    (∀ r, (considerUsingConnection c now conn).2.1 = Except.error r →
      (considerUsingConnection c now conn).2.2 = [conn]) ∧
    ((considerUsingConnection c now conn).2.1 = Except.ok () →
      (considerUsingConnection c now conn).2.2 = c.connection.toList) := by
  by_cases h1 : c.connection = some conn
  · simp [considerUsingConnection, h1]
  · by_cases h2 : conn.authResult "im.ricochet.auth.hidden-service" = true
    · by_cases h3 : PlainHostFromAddress c.data.address = conn.remoteHostname
      · by_cases h4 : c.connection.isSome = true ∧
          shouldReplaceConnection c now conn = false
        · simp [considerUsingConnection, h1, h2, h3, h4.1, h4.2]
        · rcases Decidable.not_and_iff_or_not.mp h4 with h5 | h5
          · have h6 : c.connection.isSome = false := by
              simpa using h5
            simp [considerUsingConnection, h1, h2, h3, h6]
          · have h6 : shouldReplaceConnection c now conn = true := by
              simpa using h5
            simp [considerUsingConnection, h1, h2, h3, h6]
      · simp [considerUsingConnection, h1, h2, h3]
    · have h2f : conn.authResult "im.ricochet.auth.hidden-service" = false := by
        simpa using h2
      simp [considerUsingConnection, h1, h2f]

/-- Witness for C6: a duplicate assignment of the currently held connection
is rejected, closing the candidate and leaving the state unchanged. -/
theorem considerUsingConnection_spec_witness :
    (considerUsingConnection glareStateA 5
        { id := 1, isInbound := false, authentication := [],
          remoteHostname := "bbbbbbbbbbbbbbbb" }).2.1 =
      Except.error RejectReason.duplicateAssignment :=
  (considerUsingConnection_spec glareStateA 5
      { id := 1, isInbound := false, authentication := [],
        remoteHostname := "bbbbbbbbbbbbbbbb" }).2.1.mpr (by decide)

/-- Number of running protocol loop tasks after one supervisor action:
launching a loop increments, receiving the close notification of the
previous loop decrements. -/
def loopStep (n : Nat) : Ev → Nat
  | Ev.spawnProtocolLoop => n + 1
  | Ev.recvCloseSignal => n - 1
  | _ => n

/-- At most one protocol loop task runs at every point of the trace, starting
from `n` running tasks. -/
def loopBoundOk : Nat → List Ev → Bool
  | n, [] => decide (n ≤ 1)
  | n, e :: tr => decide (n ≤ 1) && loopBoundOk (loopStep n e) tr

/-- Every close-notification receipt in the trace happens before every
protocol loop launch. -/
def closesBeforeSpawns : List Ev → Bool
  | [] => true
  | e :: tr =>
    (if e = Ev.spawnProtocolLoop then decide (Ev.recvCloseSignal ∉ tr)
     else true) && closesBeforeSpawns tr

/-- Every write of the current-connection field occurs strictly after every
receipt of the previous protocol loop's close notification — the ordering
asserted by the claim. -/
def InstalledAfterClose (tr : List Ev) : Prop :=
  ∀ (i j : Nat) (o : Bool), tr[i]? = some (Ev.setConnectionField o true) →
    tr[j]? = some Ev.recvCloseSignal → j < i

theorem onChanged_no_loop_events (c : ContactState) (now : Nat)
    (nowStr : String) (c1 : ContactState) (evs : List Ev)
    (h : onConnectionStateChanged c now nowStr = some (c1, evs)) :
    Ev.recvCloseSignal ∉ evs ∧ Ev.spawnProtocolLoop ∉ evs := by
  cases hc : c.connection with
  | none =>
    by_cases hs : c.data.status = ContactStatus.ONLINE
    · simp [onConnectionStateChanged, hc, hs] at h
      simp [← h.2]
    · simp [onConnectionStateChanged, hc, hs] at h
      simp [← h.2]
  | some conn =>
    cases hq : c.data.request.isSome with
    | true =>
      cases hi : conn.isInbound with
      | true =>
        simp [onConnectionStateChanged, hc, hq, hi,
          updateContactRequest_accepted_eq] at h
        simp [← h.2]
      | false =>
        simp [onConnectionStateChanged, hc, hq, hi] at h
        simp [← h.2]
    | false =>
      simp [onConnectionStateChanged, hc, hq] at h
      simp [← h.2]

theorem loopBoundOk_of_no_loop_events (tr : List Ev) :
    ∀ n, n ≤ 1 → Ev.recvCloseSignal ∉ tr → Ev.spawnProtocolLoop ∉ tr →
      loopBoundOk n tr = true := by
  induction tr with
  | nil => intro n h _ _; simp [loopBoundOk, h]
  | cons e tr ih =>
    intro n h hr hs
    have hstep : loopStep n e = n := by
      cases e <;> simp_all [loopStep]
    simp only [loopBoundOk, hstep, Bool.and_eq_true, decide_eq_true_eq]
    exact ⟨h, ih n h (fun hm => hr (List.mem_cons_of_mem e hm))
      (fun hm => hs (List.mem_cons_of_mem e hm))⟩

theorem closesBeforeSpawns_of_no_recv (tr : List Ev)
    (h : Ev.recvCloseSignal ∉ tr) : closesBeforeSpawns tr = true := by
  induction tr with
  | nil => rfl
  | cons e tr ih =>
    have hr : Ev.recvCloseSignal ∉ tr := fun hm => h (List.mem_cons_of_mem e hm)
    by_cases hsp : e = Ev.spawnProtocolLoop <;>
      simp [closesBeforeSpawns, hsp, hr, ih hr]

/-- The trace of the supervisor adopting `glareOfferB` over the existing
outbound connection of `glareStateB`. -/
def c7Trace : List Ev :=
  ((superviseOffer glareStateB 5 "T" glareOfferB).getD (glareStateB, [])).2

/-- C7 counterexample: when the supervisor adopts a new connection while a
previous one existed, the write of the current-connection field (index 0 of
the trace) happens strictly before the receipt of the previous protocol
loop's close notification (index 1), contradicting the claimed order; only
the protocol loop launch is deferred. -/
theorem superviseOffer_installs_before_close_wait :
    c7Trace[0]? = some (Ev.setConnectionField true true) ∧
    c7Trace[1]? = some Ev.recvCloseSignal ∧
    ¬ InstalledAfterClose c7Trace := by
  refine ⟨by decide, by decide, fun h => ?_⟩
  unfold InstalledAfterClose at h
  have h1 : (1 : Nat) < 0 := h 0 1 true (by decide) (by decide)
  omega

/-- C7 (amended): on every offer the supervisor handles, at most one protocol
loop task runs at any point (starting from one running loop when a connection
was held, zero otherwise), and the launch of the new protocol loop occurs
strictly after the receipt of the previous loop's close notification; the
write of the current-connection field, however, precedes that wait. -/
theorem superviseOffer_loop_discipline (c : ContactState) (now : Nat)
    (nowStr : String) (conn : Connection) (c1 : ContactState) (evs : List Ev)
    (h : superviseOffer c now nowStr conn = some (c1, evs)) :
    loopBoundOk (if c.connection.isSome then 1 else 0) evs = true ∧
    closesBeforeSpawns evs = true := by
  rcases hv : (considerUsingConnection c now conn).2.1 with e | u
  · simp [superviseOffer, hv] at h
    cases hcs : c.connection.isSome <;>
      simp [← h.2, loopBoundOk, loopStep, closesBeforeSpawns, hcs]
  · cases hoc : onConnectionStateChanged { c with connection := some conn }
        now nowStr with
    | none => simp [superviseOffer, hv, hoc] at h
    | some y =>
      simp [superviseOffer, hv, hoc] at h
      obtain ⟨hnr, hns⟩ := onChanged_no_loop_events _ now nowStr y.1 y.2 hoc
      cases hcs : c.connection.isSome with
      | true =>
        have hb : loopBoundOk 1 y.2 = true :=
          loopBoundOk_of_no_loop_events y.2 1 (by omega) hnr hns
        have hcb : closesBeforeSpawns y.2 = true :=
          closesBeforeSpawns_of_no_recv y.2 hnr
        simp [← h.2, hcs, loopBoundOk, loopStep, closesBeforeSpawns, hb,
          hcb, hnr]
      | false =>
        have hb : loopBoundOk 1 y.2 = true :=
          loopBoundOk_of_no_loop_events y.2 1 (by omega) hnr hns
        have hcb : closesBeforeSpawns y.2 = true :=
          closesBeforeSpawns_of_no_recv y.2 hnr
        simp [← h.2, hcs, loopBoundOk, loopStep, closesBeforeSpawns, hb,
          hcb, hnr]

/-- Witness for the amended C7 at the concrete replacing adoption. -/
theorem superviseOffer_loop_discipline_witness :
    loopBoundOk 1 c7Trace = true ∧ closesBeforeSpawns c7Trace = true :=
  superviseOffer_loop_discipline glareStateB 5 "T" glareOfferB
    ((superviseOffer glareStateB 5 "T" glareOfferB).getD (glareStateB, [])).1
    c7Trace (by decide)

/-- The event mutates the contact record or the connection field. -/
def isMutation : Ev → Bool
  | Ev.setStatus _ _ => true
  | Ev.setRequestField => true
  | Ev.clearRequest => true
  | Ev.setLastConnected => true
  | Ev.setConnectionField _ _ => true
  | _ => false

/-- The event is a transition of status or of connection-presence: a status
write that changes the value, or a connection-field write that changes
presence. -/
def isTransition : Ev → Bool
  | Ev.setStatus o n => o != n
  | Ev.setConnectionField o n => o != n
  | _ => false

/-- The ordering the claim asserts: every transition of status or of
connection-presence is followed, before any further mutation of the contact
record, by a config write and then a publish, in that order. -/
def StrictPersistPublish (tr : List Ev) : Prop :=
  ∀ (i : Nat) (e : Ev), tr[i]? = some e → isTransition e = true →
    ∃ (j k : Nat), i < j ∧ j < k ∧ tr[j]? = some Ev.configWrite ∧
      tr[k]? = some Ev.publish ∧
      ∀ (m : Nat) (e2 : Ev), i < m → tr[m]? = some e2 →
        isMutation e2 = true → k < m

/-- The amended ordering: every transition of status or of
connection-presence is followed by a config write and then, later, a
publish (the config write strictly preceding the publish). -/
def PersistThenPublish (tr : List Ev) : Prop :=
  ∀ (i : Nat) (e : Ev), tr[i]? = some e → isTransition e = true →
    ∃ (j k : Nat), i < j ∧ j < k ∧ tr[j]? = some Ev.configWrite ∧
      tr[k]? = some Ev.publish

theorem persistThenPublish_of_no_transition (tr : List Ev)
    (h : ∀ e ∈ tr, isTransition e = false) : PersistThenPublish tr := by
  unfold PersistThenPublish
  intro i e hget htr
  exact absurd htr (by simp [h e (List.getElem?_mem hget)])

theorem persistThenPublish_shape (pre post : List Ev)
    (hpost : ∀ e ∈ post, isMutation e = false) :
    PersistThenPublish (pre ++ Ev.configWrite :: Ev.publish :: post) := by
  unfold PersistThenPublish
  intro i e hget htr
  have hmut : isMutation e = true := by
    cases e <;> simp_all [isTransition, isMutation]
  have hi : i < pre.length := by
    by_contra hge
    push_neg at hge
    rw [List.getElem?_append_right hge] at hget
    rcases hd : i - pre.length with _ | n
    · rw [hd] at hget
      simp at hget
      rw [← hget] at hmut
      simp [isMutation] at hmut
    · rcases n with _ | n2
      · rw [hd] at hget
        simp at hget
        rw [← hget] at hmut
        simp [isMutation] at hmut
      · rw [hd] at hget
        simp only [List.getElem?_cons_succ] at hget
        have hmem : e ∈ post := List.getElem?_mem hget
        rw [hpost e hmem] at hmut
        cases hmut
  refine ⟨pre.length, pre.length + 1, hi, by omega, ?_, ?_⟩
  · rw [List.getElem?_append_right (le_refl _)]
    simp
  · rw [List.getElem?_append_right (by omega : pre.length ≤ pre.length + 1)]
    have hd : pre.length + 1 - pre.length = 1 := by omega
    rw [hd]
    simp

theorem onChanged_trace_shape (c : ContactState) (now : Nat)
    (nowStr : String) (c1 : ContactState) (evs : List Ev)
    (h : onConnectionStateChanged c now nowStr = some (c1, evs)) :
    ∃ pre post, evs = pre ++ Ev.configWrite :: Ev.publish :: post ∧
      ∀ e ∈ post, isMutation e = false := by
  cases hc : c.connection with
  | none =>
    by_cases hs : c.data.status = ContactStatus.ONLINE
    · simp [onConnectionStateChanged, hc, hs] at h
      exact ⟨[Ev.setStatus ContactStatus.ONLINE ContactStatus.OFFLINE,
        Ev.setLastConnected], [], by simp [← h.2], by simp⟩
    · simp [onConnectionStateChanged, hc, hs] at h
      exact ⟨[Ev.setLastConnected], [], by simp [← h.2], by simp⟩
  | some conn =>
    cases hq : c.data.request.isSome with
    | true =>
      cases hi : conn.isInbound with
      | true =>
        simp [onConnectionStateChanged, hc, hq, hi,
          updateContactRequest_accepted_eq] at h
        refine ⟨[Ev.clearRequest, Ev.setStatus c.data.status (acceptedStatus c),
          Ev.configWrite, Ev.setLastConnected], [Ev.sendQueued],
          by simp [← h.2], ?_⟩
        intro e he
        simp at he
        simp [he, isMutation]
      | false =>
        simp [onConnectionStateChanged, hc, hq, hi] at h
        refine ⟨[Ev.setStatus c.data.status ContactStatus.ONLINE,
          Ev.setLastConnected], [Ev.sendQueued], by simp [← h.2], ?_⟩
        intro e he
        simp at he
        simp [he, isMutation]
    | false =>
      simp [onConnectionStateChanged, hc, hq] at h
      refine ⟨[Ev.setStatus c.data.status ContactStatus.ONLINE,
        Ev.setLastConnected], [Ev.sendQueued], by simp [← h.2], ?_⟩
      intro e he
      simp at he
      simp [he, isMutation]

theorem updateContactRequest_trace_shape (c : ContactState) (tok now : String)
    (c2 : ContactState) (re : Bool) (evs2 : List Ev)
    (h : updateContactRequest c tok now = some (c2, re, evs2)) :
    ∃ pre, evs2 = pre ++ [Ev.configWrite] := by
  by_cases h1 : tok = "Pending"
  · subst h1
    cases hr : c.data.request with
    | none => simp [updateContactRequest, hr] at h
    | some r =>
      simp [updateContactRequest, hr] at h
      exact ⟨[Ev.setRequestField], by simp [← h.2.2]⟩
  · by_cases h2 : tok = "Accepted"
    · subst h2
      simp [updateContactRequest] at h
      exact ⟨[Ev.clearRequest,
        Ev.setStatus c.data.status (if c.connection.isSome then
          ContactStatus.ONLINE else ContactStatus.UNKNOWN)],
        by simp [← h.2.2]⟩
    · by_cases h3 : tok = "Rejected"
      · subst h3
        cases hr : c.data.request with
        | none => simp [updateContactRequest, h1, hr] at h
        | some r =>
          simp [updateContactRequest, h1, hr] at h
          exact ⟨[Ev.setRequestField], by simp [← h.2.2]⟩
      · by_cases h4 : tok = "Error"
        · subst h4
          cases hr : c.data.request with
          | none => simp [updateContactRequest, h1, h2, hr] at h
          | some r =>
            simp [updateContactRequest, h1, h2, hr] at h
            exact ⟨[Ev.setRequestField], by simp [← h.2.2]⟩
        · simp [updateContactRequest, h1, h2, h3, h4] at h
          exact ⟨[], by simp [← h.2.2]⟩

/-- The trace of the supervisor reacting to the close notification at an
ONLINE contact holding a connection. -/
def c8Trace : List Ev :=
  ((superviseClosed glareStateB 5 "T").getD (glareStateB, [])).2

/-- C8 counterexample: in the close-notification path at an ONLINE contact,
the status transition (index 1) is followed by a further mutation of the
contact record — the `last_connected` update at index 2 — before the config
write (index 3) and the publish (index 4), so the claimed "before any
further mutation" ordering fails. -/
theorem strictPersistPublish_cex :
    c8Trace = [Ev.setConnectionField true false,
      Ev.setStatus ContactStatus.ONLINE ContactStatus.OFFLINE,
      Ev.setLastConnected, Ev.configWrite, Ev.publish] ∧
    ¬ StrictPersistPublish c8Trace := by
  refine ⟨by decide, fun h => ?_⟩
  unfold StrictPersistPublish at h
  obtain ⟨j, k, hij, hjk, hcw, hpub, hm⟩ :=
    h 1 (Ev.setStatus ContactStatus.ONLINE ContactStatus.OFFLINE)
      (by decide) (by decide)
  have h2 : k < 2 := hm 2 Ev.setLastConnected (by omega) (by decide) (by decide)
  omega

/-- C8 (amended): in every operation that transitions status or
connection-presence — the supervisor's offer adoption, its close-notification
handling, and the public `UpdateContactRequest` — every such transition is
followed by a write to the config store and then a publish of the
contact-update event, in that order (the config write strictly preceding the
publish); other record mutations (the `last_connected` update, or the paired
status/connection change) may occur in between. -/
theorem persist_then_publish_amended :
    (∀ c now nowStr conn c1 evs,
       superviseOffer c now nowStr conn = some (c1, evs) →
       PersistThenPublish evs) ∧
    (∀ c now nowStr c1 evs,
       superviseClosed c now nowStr = some (c1, evs) →
       PersistThenPublish evs) ∧
    (∀ c tok now c1 re evs,
       UpdateContactRequest c tok now = some (c1, re, evs) →
       PersistThenPublish evs) := by
  refine ⟨?_, ?_, ?_⟩
  · intro c now nowStr conn c1 evs h
    rcases hv : (considerUsingConnection c now conn).2.1 with e | u
    · simp [superviseOffer, hv] at h
      apply persistThenPublish_of_no_transition
      intro e2 he2
      rw [← h.2] at he2
      simp at he2
      simp [he2, isTransition]
    · cases hoc : onConnectionStateChanged { c with connection := some conn }
          now nowStr with
      | none => simp [superviseOffer, hv, hoc] at h
      | some y =>
        simp [superviseOffer, hv, hoc] at h
        obtain ⟨pre, post, hsh, hpost⟩ :=
          onChanged_trace_shape _ now nowStr y.1 y.2 hoc
        rw [← h.2, hsh]
        have hassoc : Ev.setConnectionField c.connection.isSome true ::
            ((if c.connection.isSome then [Ev.recvCloseSignal] else []) ++
             (Ev.spawnProtocolLoop ::
               (pre ++ Ev.configWrite :: Ev.publish :: post))) =
            (Ev.setConnectionField c.connection.isSome true ::
             ((if c.connection.isSome then [Ev.recvCloseSignal] else []) ++
              (Ev.spawnProtocolLoop :: pre))) ++
              Ev.configWrite :: Ev.publish :: post := by
          simp [List.append_assoc]
        rw [hassoc]
        exact persistThenPublish_shape _ post hpost
  · intro c now nowStr c1 evs h
    cases hoc : onConnectionStateChanged { c with connection := none }
        now nowStr with
    | none => simp [superviseClosed, hoc] at h
    | some y =>
      simp [superviseClosed, hoc] at h
      obtain ⟨pre, post, hsh, hpost⟩ :=
        onChanged_trace_shape _ now nowStr y.1 y.2 hoc
      rw [← h.2, hsh]
      have hassoc : Ev.setConnectionField c.connection.isSome false ::
          (pre ++ Ev.configWrite :: Ev.publish :: post) =
          (Ev.setConnectionField c.connection.isSome false :: pre) ++
            Ev.configWrite :: Ev.publish :: post := by
        simp
      rw [hassoc]
      exact persistThenPublish_shape _ post hpost
  · intro c tok now c1 re evs h
    by_cases hr : c.data.request.isNone
    · simp [UpdateContactRequest, hr] at h
      rw [h.2.2]
      exact persistThenPublish_of_no_transition [] (by simp)
    · cases hu : updateContactRequest c tok now with
      | none => simp [UpdateContactRequest, hr, hu] at h
      | some z =>
        simp [UpdateContactRequest, hr, hu] at h
        obtain ⟨pre, hsh⟩ :=
          updateContactRequest_trace_shape c tok now z.1 z.2.1 z.2.2 hu
        rw [← h.2.2, hsh]
        have hassoc : (pre ++ [Ev.configWrite]) ++ [Ev.publish] =
            pre ++ Ev.configWrite :: Ev.publish :: [] := by
          simp
        rw [hassoc]
        exact persistThenPublish_shape pre [] (by simp)

/-- Witness for the amended C8 on the concrete close-notification trace. -/
theorem persist_then_publish_amended_witness :
    PersistThenPublish c8Trace :=
  persist_then_publish_amended.2.1 glareStateB 5 "T"
    ((superviseClosed glareStateB 5 "T").getD (glareStateB, [])).1
    c8Trace (by decide)

/-- C9: after a successful outbound authentication returning `known`, the
connector arbitrates exactly as specified: not-known with no outstanding
request closes, backs off and retries without delivering; known with an
outstanding request applies `UpdateContactRequest("Accepted")`, clears the
local flag and delivers without a handshake; not-known with an outstanding
request performs the request handshake before delivering (backing off when
it fails); and a connection is delivered to the assignment channel exactly
when the peer knows us or the outstanding request handshake succeeded. -/
theorem connectOutboundArbitration_spec :
    ∀ known isRequest handshakeOk : Bool,
      ((known = false ∧ isRequest = false) →
        connectOutboundArbitration known isRequest handshakeOk =
          [OutEffect.closeConn, OutEffect.backoff]) ∧
      ((known = true ∧ isRequest = true) →
        connectOutboundArbitration known isRequest handshakeOk =
          [OutEffect.updateAccepted, OutEffect.deliver]) ∧
      ((known = false ∧ isRequest = true) →
        connectOutboundArbitration known isRequest handshakeOk =
          (if handshakeOk then [OutEffect.sendRequest, OutEffect.deliver]
           else [OutEffect.sendRequest, OutEffect.backoff])) ∧
      (OutEffect.deliver ∈
          connectOutboundArbitration known isRequest handshakeOk ↔
        (known = true ∨ (isRequest = true ∧ handshakeOk = true))) := by
  decide

/-- Witness for C9: an unknown peer with no outstanding request makes the
connector close, back off and retry without delivering. -/
theorem connectOutboundArbitration_spec_witness :
    connectOutboundArbitration false false true =
      [OutEffect.closeConn, OutEffect.backoff] :=
  (connectOutboundArbitration_spec false false true).1 ⟨rfl, rfl⟩

/-- C10: with no outstanding request, the public `UpdateContactRequest`
returns false for every token, leaves the contact record unchanged, performs
no config write and publishes no event. -/
theorem UpdateContactRequest_no_request (c : ContactState) (tok now : String)
    (h : c.data.request = none) :
    UpdateContactRequest c tok now = some (c, false, []) := by
  simp [UpdateContactRequest, h]

/-- Witness for C10 at a concrete request-free contact. -/
theorem UpdateContactRequest_no_request_witness :
    UpdateContactRequest c4State "Accepted" "T" = some (c4State, false, []) :=
  UpdateContactRequest_no_request c4State "Accepted" "T" rfl

end RicochetCore
